import Mathlib

/-!
# Service worker of the AI Fitness Coach PWA (`static/sw.js`)

A shallow embedding of the service worker's request classifier, its two caching
strategies, its install / activate / message handlers, and theorems about them.

Modelling conventions.

* A JS string is a Lean `String`; `includes` / `startsWith` work on the list of
  characters.  Every pattern used by the worker is ASCII, so matching on code
  points and on UTF-16 units agree.
* The platform (`caches`, `fetch`) is an explicit environment: `Env.fetch` is the
  network oracle, `Env.fault` says which store operations reject and with what
  error, and `World` carries the cache storage together with a log of the
  calls made so far.
* The cache storage follows the platform's matching rules as far as the worker
  depends on them: URLs are compared without their fragment, only `GET` requests
  match or can be stored, and only http(s) URLs can be stored.
* An `async` function becomes a function returning the settled state of its
  promise together with the world it leaves behind.
-/

namespace ServiceWorker

/-! ## Strings -/

/-- Substring search on character lists: does `pat` occur in the list. -/
def includesChars (pat : List Char) : List Char → Bool
  | [] => pat.isEmpty
  | c :: cs => pat.isPrefixOf (c :: cs) || includesChars pat cs

/-- JS `s.includes(pat)`. -/
def includes (s pat : String) : Bool := includesChars pat.data s.data

/-- JS `s.startsWith(pat)`. -/
def startsWith (s pat : String) : Bool := pat.data.isPrefixOf s.data

/-! ## Constants (sw.js lines 2-18) -/

def CACHE_NAME : String := "fitness-coach-v1.2.0"
def STATIC_CACHE : String := "static-cache-v1"
def DYNAMIC_CACHE : String := "dynamic-cache-v1"

def STATIC_ASSETS : List String :=
  [ "/",
    "/static/css/style.css",
    "/static/manifest.json",
    "/track",
    "/progress",
    "/static/icons/icon-192x192.png",
    "/static/icons/icon-512x512.png",
    "https://fonts.googleapis.com/css2?family=Inter:wght@300;400;500;600;700&display=swap" ]

/-! ## Classifier (sw.js lines 97-106) -/

/-- The function `isStaticAsset(url)` of sw.js: eight substring tests on the whole URL text. -/
def isStaticAsset (url : String) : Bool :=
  includes url "/static/" ||
  includes url ".css" ||
  includes url ".js" ||
  includes url ".png" ||
  includes url ".jpg" ||
  includes url ".jpeg" ||
  includes url ".svg" ||
  includes url "fonts.googleapis.com"

/-- The eight texts `isStaticAsset` searches for. -/
def staticPatterns : List String :=
  ["/static/", ".css", ".js", ".png", ".jpg", ".jpeg", ".svg", "fonts.googleapis.com"]

/-! ### The classifier as the specification words it

The specification speaks of a path prefix, a file-extension allow-list and a font
host.  The following definitions split a URL into host and path and state that
reading; they are compared with `isStaticAsset` below. -/

/-- Drop everything up to and including the first `://`. -/
def dropScheme : List Char → List Char
  | ':' :: '/' :: '/' :: rest => rest
  | _ :: rest => dropScheme rest
  | [] => []

/-- Host name of a URL: the authority up to the first `/`, `?` or `#`, without the port. -/
def urlHost (url : String) : List Char :=
  ((dropScheme url.data).takeWhile (fun c => c != '/' && c != '?' && c != '#')).takeWhile
    (fun c => c != ':')

/-- Path of a URL: what follows the authority, up to the first `?` or `#`. -/
def urlPath (url : String) : List Char :=
  ((dropScheme url.data).dropWhile (fun c => c != '/' && c != '?' && c != '#')).takeWhile
    (fun c => c != '?' && c != '#')

/-- Text after the last occurrence of `sep`, if `sep` occurs. -/
def afterLast (sep : Char) (cs : List Char) : Option (List Char) :=
  if sep ∈ cs then some (cs.reverse.takeWhile (fun c => c != sep)).reverse else none

/-- File extension of a path: the text after the last dot of its last segment. -/
def pathExtension (path : List Char) : Option (List Char) :=
  afterLast '.' ((afterLast '/' path).getD path)

/-- The extension allow-list named by the specification. -/
def staticExtensions : List (List Char) :=
  ["css".data, "js".data, "png".data, "jpg".data, "jpeg".data, "svg".data]

/-- Specification-side classifier: the path begins with `/static/`, or the path's file
extension is in the allow-list, or the host is the font host. -/
def specIsStaticAsset (url : String) : Bool :=
  "/static/".data.isPrefixOf (urlPath url) ||
  (match pathExtension (urlPath url) with
   | some ext => staticExtensions.contains ext
   | none => false) ||
  (urlHost url == "fonts.googleapis.com".data)

/-! ## Data model -/

/-- A JS error value (what a rejected promise or a `throw` carries). -/
structure JsError where
  name : String
  message : String
deriving DecidableEq, Repr

/-- The `TypeError` raised by the runtime itself (property access on `undefined`,
`addAll` meeting a response that is not ok). -/
def typeError : JsError := ⟨"TypeError", ""⟩

/-- A response: status, `Content-Type` header, body. Responses carry no `Vary` header, so
cache matching does not depend on request headers. -/
structure Response where
  status : Nat
  contentType : String
  body : String
deriving DecidableEq, Repr

/-- An intercepted request: `request.url` (fragment included), `request.destination` and
`request.method`. Request headers are not modelled. -/
structure Request where
  url : String
  destination : String
  method : String
deriving DecidableEq, Repr

/-- One named cache of the cache storage: its entries, keyed by URL, in insertion order. -/
structure Generation where
  name : String
  entries : List (String × Response)
deriving DecidableEq, Repr

/-- Calls the worker makes on the platform, in the order made (a call is recorded whether
it succeeds or not). -/
inductive Event where
  | fetched (url : String)
  | matched (url : String)
  | opened (cache : String)
  | stored (cache : String) (url : String)
  | addedAll (cache : String)
  | listedKeys
  | deleted (cache : String)
  | skipWaiting
  | claimed
  | consoleError (e : JsError)
  | posted (port : Nat) (version : String)
deriving DecidableEq, Repr

/-- The store operations that can reject. -/
inductive StoreOp where
  | lookup (url : String)
  | openCache (cache : String)
  | put (cache : String) (url : String)
  | addAll (cache : String)
  | keys
  | delete (cache : String)
deriving DecidableEq, Repr

/-- The platform around the worker. -/
structure Env where
  /-- Origin the worker is served from; relative URLs such as `/` resolve against it. -/
  origin : String
  /-- Network oracle: `fetch(request)` resolves with a response or rejects with an error. -/
  fetch : Request → Except JsError Response
  /-- Store fault oracle: `some e` when the store operation rejects with `e`. -/
  fault : StoreOp → Option JsError

/-- Every store operation succeeds. -/
def Env.storeHealthy (env : Env) : Prop := ∀ op, env.fault op = none

/-- Mutable state: the cache storage (generations in creation order) and the effect log. -/
structure World where
  caches : List Generation
  log : List Event
deriving DecidableEq, Repr

/-- Settled state of a promise of a response: fulfilled with a response, fulfilled with
`undefined` (`none`), or rejected. -/
inductive Settled where
  | fulfilled (v : Option Response)
  | rejected (e : JsError)
deriving DecidableEq, Repr

/-- The JS values that occur in the `return` expressions of the strategies. -/
inductive JsValue where
  | undefined
  | response (r : Response)
  | promise (s : Settled)
deriving DecidableEq, Repr

/-- JS truthiness: `undefined` is falsy, every object (a Response, a Promise) is truthy. -/
def JsValue.truthy : JsValue → Bool
  | .undefined => false
  | .response _ => true
  | .promise _ => true

/-- JS `a || b`. -/
def jsOr (a b : JsValue) : JsValue := if a.truthy then a else b

/-- What the promise of an `async` function settles to when the body returns `v`:
a returned promise is adopted. -/
def asyncReturn : JsValue → Settled
  | .undefined => .fulfilled none
  | .response r => .fulfilled (some r)
  | .promise s => s

/-- A settled response promise as a JS value (the promise object itself). -/
def promiseOf (r : Except JsError (Option Response)) : JsValue :=
  match r with
  | .ok v => .promise (.fulfilled v)
  | .error e => .promise (.rejected e)

/-! ## Platform operations -/

/-- Append an effect to the log. -/
def World.emit (w : World) (ev : Event) : World := { w with log := w.log ++ [ev] }

/-- Resolve a URL given to the worker as text against the worker's origin. -/
def resolveUrl (env : Env) (u : String) : String :=
  if startsWith u "http" then u else env.origin ++ u

/-- The request `new Request(url)` the platform builds from a URL text: a `GET` request
with an empty destination. -/
def getRequest (url : String) : Request := ⟨url, "", "GET"⟩

/-- What the cache compares URLs by: the URL without its fragment. -/
def cacheKey (url : String) : List Char := url.data.takeWhile (fun c => c != '#')

/-- The URLs a cache accepts: scheme `http` or `https`. -/
def httpScheme (url : String) : Bool := startsWith url "http://" || startsWith url "https://"

/-- Lookup in one cache: `cache.match(url)`, fragments ignored. -/
def Generation.get (g : Generation) (url : String) : Option Response :=
  (g.entries.find? (fun e => cacheKey e.1 == cacheKey url)).map (fun e => e.2)

/-- Write in one cache: `cache.put(url, r)` replaces the entry that matches `url`. -/
def Generation.set (g : Generation) (url : String) (r : Response) : Generation :=
  { g with entries := g.entries.filter (fun e => cacheKey e.1 != cacheKey url) ++ [(url, r)] }

/-- Lookup across the whole storage, caches in creation order, first hit wins. -/
def storeLookup : List Generation → String → Option Response
  | [], _ => none
  | g :: gs, url =>
    match g.get url with
    | some r => some r
    | none => storeLookup gs url

/-- The cache of a given name, if it exists. -/
def findGeneration (name : String) (gs : List Generation) : Option Generation :=
  gs.find? (fun g => g.name == name)

/-- Platform `fetch(request)`. -/
def netFetch (env : Env) (req : Request) (w : World) : Except JsError Response × World :=
  (env.fetch req, w.emit (.fetched req.url))

/-- What `caches.match(request)` finds in a storage: the first entry stored under the
request's URL when the method is `GET`, nothing for any other method. -/
def storageMatch (gs : List Generation) (req : Request) : Option Response :=
  if req.method = "GET" then storeLookup gs req.url else none

/-- Platform `caches.match(request)`. -/
def cachesMatch (env : Env) (req : Request) (w : World) :
    Except JsError (Option Response) × World :=
  match env.fault (.lookup req.url) with
  | some e => (.error e, w.emit (.matched req.url))
  | none => (.ok (storageMatch w.caches req), w.emit (.matched req.url))

/-- Platform `caches.open(name)`: creates the cache on first use. -/
def cachesOpen (env : Env) (name : String) (w : World) : Except JsError Unit × World :=
  match env.fault (.openCache name) with
  | some e => (.error e, w.emit (.opened name))
  | none =>
    if (findGeneration name w.caches).isSome then (.ok (), w.emit (.opened name))
    else (.ok (), { caches := w.caches ++ [⟨name, []⟩], log := w.log ++ [.opened name] })

/-- Platform `cache.put(request, r)` on the cache `name`, as the strategies use it. The
platform refuses a request whose method is not `GET` or whose URL is not http(s) with a
`TypeError`, and the write itself can fail (quota, I/O). The returned promise is not
awaited, so a rejection is not observed and only leaves the store as it was. -/
def cachePut (env : Env) (name : String) (req : Request) (r : Response) (w : World) : World :=
  if req.method = "GET" ∧ httpScheme req.url = true then
    match env.fault (.put name req.url) with
    | some _ => w.emit (.stored name req.url)
    | none =>
      { caches := w.caches.map (fun g => if g.name == name then g.set req.url r else g),
        log := w.log ++ [.stored name req.url] }
  else
    w.emit (.stored name req.url)

/-- Platform `caches.keys()`. -/
def cachesKeys (env : Env) (w : World) : Except JsError (List String) × World :=
  match env.fault .keys with
  | some e => (.error e, w.emit .listedKeys)
  | none => (.ok (w.caches.map (fun g => g.name)), w.emit .listedKeys)

/-- Platform `caches.delete(name)`. -/
def cachesDelete (env : Env) (name : String) (w : World) : Except JsError Unit × World :=
  match env.fault (.delete name) with
  | some e => (.error e, w.emit (.deleted name))
  | none =>
    (.ok (), { caches := w.caches.filter (fun g => g.name != name),
               log := w.log ++ [.deleted name] })

/-- Fetch every URL of an `addAll` in turn, collecting the responses; the first failure
(a URL that is not http(s), a rejected fetch, or a response whose status is not ok or is
206) is the result. -/
def fetchAll (env : Env) : List String → World → Except JsError (List (String × Response)) × World
  | [], w => (.ok [], w)
  | u :: us, w =>
    let key := resolveUrl env u
    let (r, w1) := netFetch env (getRequest key) w
    let (rs, w2) := fetchAll env us w1
    if httpScheme key = true then
      match r with
      | .error e => (.error e, w2)
      | .ok resp =>
        if 200 ≤ resp.status ∧ resp.status ≤ 299 ∧ resp.status ≠ 206 then
          match rs with
          | .error e => (.error e, w2)
          | .ok l => (.ok ((key, resp) :: l), w2)
        else (.error typeError, w2)
    else (.error typeError, w2)

/-- Does `addAll` fail on the asset `u`: its URL is not http(s), or its fetch is rejected,
or it is answered with a status that is not ok or is 206. -/
def assetFails (env : Env) (u : String) : Bool :=
  !httpScheme (resolveUrl env u) ||
  match env.fetch (getRequest (resolveUrl env u)) with
  | .error _ => true
  | .ok resp => !decide (200 ≤ resp.status ∧ resp.status ≤ 299 ∧ resp.status ≠ 206)

/-- Write a batch of entries into one cache. -/
def Generation.setAll (g : Generation) : List (String × Response) → Generation
  | [] => g
  | (u, r) :: rest => (g.set u r).setAll rest

/-- Platform `cache.addAll(urls)` on the cache `name`: all-or-nothing. -/
def cacheAddAll (env : Env) (name : String) (urls : List String) (w : World) :
    Except JsError Unit × World :=
  match fetchAll env urls w with
  | (.error e, w1) => (.error e, w1.emit (.addedAll name))
  | (.ok l, w1) =>
    match env.fault (.addAll name) with
    | some e => (.error e, w1.emit (.addedAll name))
    | none =>
      (.ok (), { caches := w1.caches.map (fun g => if g.name == name then g.setAll l else g),
                 log := w1.log ++ [.addedAll name] })

/-! ## Strategies (sw.js lines 109-173) -/

/-- The offline placeholder built in the `catch` block of `cacheFirst`. -/
def offlineResponse : Response :=
  ⟨503, "text/plain; charset=utf-8", "Application hors ligne"⟩

/-- The `catch (error)` block of `cacheFirst` (lines 127-139). -/
def cacheFirstCatch (env : Env) (request : Request) (error : JsError) (w : World) :
    Settled × World :=
  if request.destination = "document" then
    -- return caches.match('/') || new Response(...): the left operand is the promise itself
    let (m, w1) := cachesMatch env (getRequest (resolveUrl env "/")) w
    (asyncReturn (jsOr (promiseOf m) (.response offlineResponse)), w1)
  else
    (.rejected error, w)

/-- The function `cacheFirst(request)` (lines 109-140). -/
def cacheFirst (env : Env) (request : Request) (w : World) : Settled × World :=
  match cachesMatch env request w with
  | (.error e, w1) => cacheFirstCatch env request e w1
  | (.ok (some cachedResponse), w1) => (.fulfilled (some cachedResponse), w1)
  | (.ok none, w1) =>
    match netFetch env request w1 with
    | (.error e, w2) => cacheFirstCatch env request e w2
    | (.ok networkResponse, w2) =>
      if networkResponse.status = 200 then
        match cachesOpen env DYNAMIC_CACHE w2 with
        | (.error e, w3) => cacheFirstCatch env request e w3
        | (.ok _, w3) =>
          (.fulfilled (some networkResponse),
            cachePut env DYNAMIC_CACHE request networkResponse w3)
      else
        (.fulfilled (some networkResponse), w2)

/-- The `catch (error)` block of `networkFirst` (lines 155-172); an error raised inside it
rejects the strategy's promise. -/
def networkFirstCatch (env : Env) (request : Request) (error : JsError) (w : World) :
    Settled × World :=
  match cachesMatch env request w with
  | (.error e, w1) => (.rejected e, w1)
  | (.ok (some cachedResponse), w1) => (.fulfilled (some cachedResponse), w1)
  | (.ok none, w1) =>
    if request.destination = "document" then
      match cachesMatch env (getRequest (resolveUrl env "/")) w1 with
      | (.error e, w2) => (.rejected e, w2)
      | (.ok (some fallbackResponse), w2) => (.fulfilled (some fallbackResponse), w2)
      | (.ok none, w2) => (.rejected error, w2)
    else
      (.rejected error, w1)

/-- The function `networkFirst(request)` (lines 143-173). -/
def networkFirst (env : Env) (request : Request) (w : World) : Settled × World :=
  match netFetch env request w with
  | (.error e, w1) => networkFirstCatch env request e w1
  | (.ok networkResponse, w1) =>
    if networkResponse.status = 200 then
      match cachesOpen env DYNAMIC_CACHE w1 with
      | (.error e, w2) => networkFirstCatch env request e w2
      | (.ok _, w2) =>
        (.fulfilled (some networkResponse),
          cachePut env DYNAMIC_CACHE request networkResponse w2)
    else
      (.fulfilled (some networkResponse), w1)

/-! ## Event listeners -/

/-- The `fetch` listener (lines 71-94): `none` when the listener returns without calling
`event.respondWith`, otherwise the promise handed to `respondWith` and the world after it.
The `new URL(request.url)` of line 73 is not modelled: the URL of a request always parses
and the result is never read. -/
def onFetch (env : Env) (request : Request) (w : World) : Option (Settled × World) :=
  if !(startsWith request.url "http") then
    none
  else if isStaticAsset request.url then
    some (cacheFirst env request w)
  else if request.destination = "document" ∨ includes request.url "/api/" = true then
    some (networkFirst env request w)
  else
    some (cacheFirst env request w)

/-- The `install` listener (lines 27-44): the settled state of the promise handed to
`event.waitUntil`, and the world after it. -/
def onInstall (env : Env) (w : World) : Except JsError Unit × World :=
  -- caches.open(STATIC_CACHE).then(cache => cache.addAll(STATIC_ASSETS))
  let (r1, w1) :=
    match cachesOpen env STATIC_CACHE w with
    | (.error e, w1) => ((Except.error e : Except JsError Unit), w1)
    | (.ok _, w1) => cacheAddAll env STATIC_CACHE STATIC_ASSETS w1
  -- .then(() => self.skipWaiting())
  let (r2, w2) :=
    match r1 with
    | .error e => ((Except.error e : Except JsError Unit), w1)
    | .ok _ => (.ok (), w1.emit .skipWaiting)
  -- .catch(error => console.error(...))
  match r2 with
  | .error e => (.ok (), w2.emit (.consoleError e))
  | .ok _ => (.ok (), w2)

/-- The deletions started by `cacheNames.map(...)` in the `activate` listener: every stale
name is deleted; the first rejection, if any, is what `Promise.all` rejects with. -/
def deleteStale (env : Env) : List String → World → Option JsError × World
  | [], w => (none, w)
  | cacheName :: rest, w =>
    if cacheName ≠ STATIC_CACHE ∧ cacheName ≠ DYNAMIC_CACHE then
      let (r, w1) := cachesDelete env cacheName w
      let (rs, w2) := deleteStale env rest w1
      match r with
      | .error e => (some e, w2)
      | .ok _ => (rs, w2)
    else
      deleteStale env rest w

/-- The `activate` listener (lines 47-68): the settled state of the promise handed to
`event.waitUntil`, and the world after it. -/
def onActivate (env : Env) (w : World) : Except JsError Unit × World :=
  match cachesKeys env w with
  | (.error e, w1) => (.error e, w1)
  | (.ok cacheNames, w1) =>
    match deleteStale env cacheNames w1 with
    | (some e, w2) => (.error e, w2)
    | (none, w2) => (.ok (), w2.emit .claimed)

/-- The value of `event.data` as far as the `message` listener reads it: its `type`
property, `none` when absent. -/
structure MessageData where
  type : Option String
deriving DecidableEq, Repr

/-- A message event: `event.data` (`none` when falsy) and `event.ports`. -/
structure MessageEvent where
  data : Option MessageData
  ports : List Nat
deriving DecidableEq, Repr

/-- JS `event.data && event.data.type === t`. -/
def MessageEvent.hasType (ev : MessageEvent) (t : String) : Bool :=
  match ev.data with
  | none => false
  | some d => d.type == some t

/-- The `message` listener (lines 176-185): `.error` when the listener throws. -/
def onMessage (ev : MessageEvent) (w : World) : Except JsError Unit × World :=
  let w1 := if ev.hasType "SKIP_WAITING" then w.emit .skipWaiting else w
  if ev.hasType "GET_VERSION" then
    -- event.ports[0].postMessage({ version: CACHE_NAME })
    match ev.ports[0]? with
    | none => (.error typeError, w1)
    | some port => (.ok (), w1.emit (.posted port CACHE_NAME))
  else
    (.ok (), w1)

/-- Number of network calls recorded in a log. -/
def networkCalls (log : List Event) : Nat :=
  log.countP (fun ev => match ev with | .fetched _ => true | _ => false)

/-- Number of store lookups recorded in a log. -/
def storeLookups (log : List Event) : Nat :=
  log.countP (fun ev => match ev with | .matched _ => true | _ => false)

/-- The messages posted to reply ports recorded in a log. -/
def postedMessages (log : List Event) : List (Nat × String) :=
  log.filterMap (fun ev => match ev with | .posted p v => some (p, v) | _ => none)

/-! ## Sample inputs -/

/-- An environment whose network always fails and whose store never does. -/
def offlineEnv : Env :=
  { origin := "https://app.test",
    fetch := fun _ => .error ⟨"TypeError", "Failed to fetch"⟩,
    fault := fun _ => none }

/-- An environment whose network answers every request with one fixed response. -/
def onlineEnv (r : Response) : Env :=
  { origin := "https://app.test",
    fetch := fun _ => .ok r,
    fault := fun _ => none }

/-- A plain 200 response. -/
def okResponse : Response := ⟨200, "application/json", "fresh"⟩

/-- A 404 response. -/
def notFoundResponse : Response := ⟨404, "text/plain", "missing"⟩

/-- A stored page. -/
def homePage : Response := ⟨200, "text/html", "home"⟩

/-- A storage holding the root document in the preload generation, an empty runtime
generation and a generation left over by an older worker. -/
def sampleCaches : List Generation :=
  [ ⟨"static-cache-v1", [("https://app.test/", homePage)]⟩,
    ⟨"dynamic-cache-v1", []⟩,
    ⟨"static-cache-v0", [("https://app.test/old", homePage)]⟩ ]

/-- The sample storage with an empty log. -/
def sampleWorld : World := ⟨sampleCaches, []⟩

/-- The empty storage with an empty log. -/
def emptyWorld : World := ⟨[], []⟩

/-- A storage whose runtime generation holds a script and an API answer. -/
def warmWorld : World :=
  ⟨[ ⟨"static-cache-v1", [("https://app.test/", homePage)]⟩,
     ⟨"dynamic-cache-v1",
       [ ("https://app.test/static/app.js", ⟨200, "text/javascript", "stored script"⟩),
         ("https://app.test/api/data", ⟨200, "application/json", "stored data"⟩) ]⟩ ], []⟩

/-- The error a failing store operation rejects with in the samples. -/
def quotaError : JsError := ⟨"QuotaExceededError", "storage unavailable"⟩

/-- Network up (answers `okResponse`), store lookups failing. -/
def lookupFailsEnv : Env :=
  { origin := "https://app.test",
    fetch := fun _ => .ok okResponse,
    fault := fun op => match op with | .lookup _ => some quotaError | _ => none }

/-- Network up (answers `okResponse`), `caches.open` failing. -/
def openFailsEnv : Env :=
  { origin := "https://app.test",
    fetch := fun _ => .ok okResponse,
    fault := fun op => match op with | .openCache _ => some quotaError | _ => none }

/-- Network up (answers `okResponse`), `cache.put` failing. -/
def putFailsEnv : Env :=
  { origin := "https://app.test",
    fetch := fun _ => .ok okResponse,
    fault := fun op => match op with | .put _ _ => some quotaError | _ => none }

/-- Network down, store lookups failing. -/
def offlineLookupFailsEnv : Env :=
  { origin := "https://app.test",
    fetch := fun _ => .error ⟨"TypeError", "Failed to fetch"⟩,
    fault := fun op => match op with | .lookup _ => some quotaError | _ => none }

/-- An environment whose network answers every asset of the install list with a 404. -/
def notFoundEnv : Env := onlineEnv notFoundResponse

/-- A `POST` to the API, which the fetch listener hands to `networkFirst`. -/
def postRequest : Request := ⟨"https://app.test/api/data", "", "POST"⟩

/-- The API request with a fragment on its URL. -/
def apiFragmentRequest : Request := ⟨"https://app.test/api/data#top", "", "GET"⟩

/-- A script request the fetch listener hands to `cacheFirst`. -/
def scriptRequest : Request := ⟨"https://app.test/static/app.js", "script", "GET"⟩

/-- An API request the fetch listener hands to `networkFirst`. -/
def apiRequest : Request := ⟨"https://app.test/api/data", "", "GET"⟩

/-- A document request the fetch listener hands to `cacheFirst` (its URL is under
`/static/`). -/
def staticDocumentRequest : Request :=
  ⟨"https://app.test/static/help.html", "document", "GET"⟩

/-- A `GET_VERSION` message that carries no reply port. -/
def versionQueryWithoutPort : MessageEvent := ⟨some ⟨some "GET_VERSION"⟩, []⟩

/-- A `GET_VERSION` message that carries the reply port 7. -/
def versionQueryWithPort : MessageEvent := ⟨some ⟨some "GET_VERSION"⟩, [7]⟩

/-! ## Lemmas on strings and on the store -/

theorem includesChars_iff (pat s : List Char) : includesChars pat s = true ↔ pat <:+: s := by
  induction s with
  | nil => simp [includesChars, List.infix_nil, List.isEmpty_iff]
  | cons c cs ih =>
    simp only [includesChars, Bool.or_eq_true, ih, List.infix_cons_iff,
      List.isPrefixOf_iff_prefix]

theorem storeLookup_some_mem {gs : List Generation} {url : String} {r : Response}
    (h : storeLookup gs url = some r) : ∃ g ∈ gs, g.get url = some r := by
  induction gs with
  | nil => simp [storeLookup] at h
  | cons g gs ih =>
    simp only [storeLookup] at h
    cases hg : g.get url with
    | some r0 =>
      rw [hg] at h
      exact ⟨g, List.mem_cons_self _ _, by rw [hg]; exact h⟩
    | none =>
      rw [hg] at h
      obtain ⟨g1, hmem, hget⟩ := ih h
      exact ⟨g1, List.mem_cons_of_mem _ hmem, hget⟩

theorem storeLookup_of_held {gs : List Generation} {url : String}
    (h : ∃ g ∈ gs, (g.get url).isSome = true) : ∃ r, storeLookup gs url = some r := by
  induction gs with
  | nil => simp at h
  | cons g gs ih =>
    simp only [storeLookup]
    cases hg : g.get url with
    | some r0 => exact ⟨r0, rfl⟩
    | none =>
      obtain ⟨g1, hmem, hsome⟩ := h
      rcases List.mem_cons.mp hmem with heq | hmem1
      · rw [heq, hg] at hsome
        simp at hsome
      · exact ih ⟨g1, hmem1, hsome⟩

theorem networkCalls_append (l1 l2 : List Event) :
    networkCalls (l1 ++ l2) = networkCalls l1 + networkCalls l2 := by
  simp [networkCalls, List.countP_append]

theorem storeLookups_append (l1 l2 : List Event) :
    storeLookups (l1 ++ l2) = storeLookups l1 + storeLookups l2 := by
  simp [storeLookups, List.countP_append]

theorem storageMatch_of_miss {gs : List Generation} {request : Request}
    (h : storeLookup gs request.url = none) : storageMatch gs request = none := by
  unfold storageMatch
  split
  · exact h
  · rfl

/-! ## C1: strategy selection -/

/-- C1: the fetch listener chooses by priority. A URL not starting with `http` gets no
response (`none`); otherwise a URL accepted by `isStaticAsset` is answered by
`cacheFirst`, whatever its destination and even if it contains `/api/`; otherwise a
document request or a URL containing `/api/` is answered by `networkFirst`; every other
request is answered by `cacheFirst`. The four conditions are exhaustive and mutually
exclusive, so exactly one outcome is chosen. -/
theorem onFetch_strategy_priority (env : Env) (request : Request) (w : World) :
    (startsWith request.url "http" = false → onFetch env request w = none) ∧
    (startsWith request.url "http" = true → isStaticAsset request.url = true →
      onFetch env request w = some (cacheFirst env request w)) ∧
    (startsWith request.url "http" = true → isStaticAsset request.url = false →
      (request.destination = "document" ∨ includes request.url "/api/" = true) →
      onFetch env request w = some (networkFirst env request w)) ∧
    (startsWith request.url "http" = true → isStaticAsset request.url = false →
      ¬ (request.destination = "document" ∨ includes request.url "/api/" = true) →
      onFetch env request w = some (cacheFirst env request w)) ∧
    (startsWith request.url "http" = false ∨
      (startsWith request.url "http" = true ∧ isStaticAsset request.url = true) ∨
      (startsWith request.url "http" = true ∧ isStaticAsset request.url = false ∧
        (request.destination = "document" ∨ includes request.url "/api/" = true)) ∨
      (startsWith request.url "http" = true ∧ isStaticAsset request.url = false ∧
        ¬ (request.destination = "document" ∨ includes request.url "/api/" = true))) := by
  refine ⟨?_, ?_, ?_, ?_, ?_⟩
  · intro h
    simp [onFetch, h]
  · intro h hs
    simp [onFetch, h, hs]
  · intro h hs hd
    simp only [onFetch, h, hs]
    simp [hd]
  · intro h hs hd
    simp only [onFetch, h, hs]
    simp [hd]
  · cases startsWith request.url "http" <;> cases isStaticAsset request.url <;>
      by_cases hd : (request.destination = "document" ∨ includes request.url "/api/" = true) <;>
      simp [hd]

/-- C1 witness: one request for each of the four outcomes. -/
theorem onFetch_strategy_priority_witness :
    onFetch offlineEnv ⟨"chrome-extension://abc/page.js", "script", "GET"⟩ emptyWorld = none ∧
    onFetch offlineEnv ⟨"https://app.test/api/export.json", "", "GET"⟩ emptyWorld
      = some (cacheFirst offlineEnv ⟨"https://app.test/api/export.json", "", "GET"⟩ emptyWorld) ∧
    onFetch offlineEnv apiRequest emptyWorld = some (networkFirst offlineEnv apiRequest emptyWorld) ∧
    onFetch offlineEnv ⟨"https://app.test/avatar", "image", "GET"⟩ emptyWorld
      = some (cacheFirst offlineEnv ⟨"https://app.test/avatar", "image", "GET"⟩ emptyWorld) :=
  ⟨(onFetch_strategy_priority offlineEnv ⟨"chrome-extension://abc/page.js", "script", "GET"⟩
      emptyWorld).1 (by decide),
   (onFetch_strategy_priority offlineEnv ⟨"https://app.test/api/export.json", "", "GET"⟩
      emptyWorld).2.1 (by decide) (by decide),
   (onFetch_strategy_priority offlineEnv apiRequest emptyWorld).2.2.1 (by decide) (by decide)
      (by decide),
   (onFetch_strategy_priority offlineEnv ⟨"https://app.test/avatar", "image", "GET"⟩
      emptyWorld).2.2.2.1 (by decide) (by decide) (by decide)⟩

/-! ## C2: the classifier -/

/-- C2 (as stated, refuted): a URL whose path is under `/api/` and ends in `.json` is not
static in the specification's reading (no `/static/` path prefix, extension `json`, host
not the font host), yet `isStaticAsset` accepts it because the text `.js` occurs in it;
likewise a URL that carries `.css` only in its query string. -/
theorem isStaticAsset_accepts_api_json :
    specIsStaticAsset "https://example.com/api/data.json" = false ∧
    isStaticAsset "https://example.com/api/data.json" = true ∧
    specIsStaticAsset "https://example.com/page?file=a.css" = false ∧
    isStaticAsset "https://example.com/page?file=a.css" = true := by
  decide

/-- C2 (amended): `isStaticAsset` returns true exactly when one of the eight texts
`/static/`, `.css`, `.js`, `.png`, `.jpg`, `.jpeg`, `.svg`, `fonts.googleapis.com` occurs
anywhere in the URL text (scheme, host, path, query or fragment alike). -/
theorem isStaticAsset_iff_contains_pattern (url : String) :
    isStaticAsset url = true ↔ ∃ p ∈ staticPatterns, p.data <:+: url.data := by
  simp only [isStaticAsset, includes, Bool.or_eq_true, includesChars_iff, staticPatterns,
    List.mem_cons, List.mem_singleton, List.not_mem_nil, or_false, exists_eq_or_imp,
    exists_eq_left, or_assoc]

/-! ## C3: a stored entry is served without the network -/

/-- C3 (as stated, refuted): a generation holds an entry for the request, yet `cacheFirst`
does not return it. When the store lookup itself rejects, the strategy rejects with the
store's error; and for a `POST` request `caches.match` finds nothing although an entry is
stored under its URL, so the network is called and its answer returned. -/
theorem cacheFirst_stored_entry_not_served :
    (∃ g ∈ warmWorld.caches, (g.get scriptRequest.url).isSome = true) ∧
    (cacheFirst lookupFailsEnv scriptRequest warmWorld).1 = .rejected quotaError ∧
    (∃ g ∈ warmWorld.caches, (g.get postRequest.url).isSome = true) ∧
    (cacheFirst (onlineEnv okResponse) postRequest warmWorld).1
      = .fulfilled (some okResponse) ∧
    networkCalls (cacheFirst (onlineEnv okResponse) postRequest warmWorld).2.log = 1 := by
  decide

/-- C3 (amended): for every `GET` request whose store lookup does not fail, when some
generation holds an entry for the request's URL (fragment ignored), `cacheFirst` resolves
with an entry some generation holds for it (the first in creation order), records no
network call, and leaves the cache storage as it was. -/
theorem cacheFirst_serves_stored_entry (env : Env) (request : Request) (w : World)
    (hlookup : env.fault (.lookup request.url) = none)
    (hmethod : request.method = "GET")
    (hheld : ∃ g ∈ w.caches, (g.get request.url).isSome = true) :
    ∃ g ∈ w.caches, ∃ r, g.get request.url = some r ∧
      storeLookup w.caches request.url = some r ∧
      (cacheFirst env request w).1 = .fulfilled (some r) ∧
      networkCalls (cacheFirst env request w).2.log = networkCalls w.log ∧
      (cacheFirst env request w).2.caches = w.caches := by
  obtain ⟨r, hr⟩ := storeLookup_of_held hheld
  obtain ⟨g, hmem, hget⟩ := storeLookup_some_mem hr
  refine ⟨g, hmem, r, hget, hr, ?_, ?_, ?_⟩ <;>
    simp [cacheFirst, cachesMatch, hlookup, storageMatch, hmethod, hr, World.emit,
      networkCalls_append, networkCalls]

/-- C3 witness: the stored API answer is served for a request whose URL carries a
fragment, with the network down. -/
theorem cacheFirst_serves_stored_entry_witness :
    ∃ g ∈ warmWorld.caches, ∃ r, g.get apiFragmentRequest.url = some r ∧
      storeLookup warmWorld.caches apiFragmentRequest.url = some r ∧
      (cacheFirst offlineEnv apiFragmentRequest warmWorld).1 = .fulfilled (some r) ∧
      networkCalls (cacheFirst offlineEnv apiFragmentRequest warmWorld).2.log
        = networkCalls warmWorld.log ∧
      (cacheFirst offlineEnv apiFragmentRequest warmWorld).2.caches = warmWorld.caches :=
  cacheFirst_serves_stored_entry offlineEnv apiFragmentRequest warmWorld rfl rfl (by decide)

/-! ## C4: a network response is returned, and stored iff its status is 200 -/

theorem findGeneration_name {n : String} {cs : List Generation} {g : Generation}
    (h : findGeneration n cs = some g) : g.name = n := by
  have := List.find?_some h
  simpa using this

theorem findGeneration_map (n : String) (f : Generation → Generation)
    (hf : ∀ g, (f g).name = g.name) (cs : List Generation) :
    findGeneration n (cs.map f) = (findGeneration n cs).map f := by
  induction cs with
  | nil => rfl
  | cons c cs ih =>
    unfold findGeneration at ih ⊢
    simp only [List.map_cons, List.find?_cons, hf]
    cases hc : (c.name == n)
    · exact ih
    · rfl

theorem findGeneration_map_set (n name url : String) (r : Response) (cs : List Generation) :
    findGeneration n (cs.map (fun g => if g.name == name then g.set url r else g))
      = (findGeneration n cs).map (fun g => if g.name == name then g.set url r else g) :=
  findGeneration_map n _ (fun g => by split <;> rfl) cs

theorem Generation.get_set (g : Generation) (url : String) (r : Response) :
    (g.set url r).get url = some r := by
  have h : List.find? (fun e : String × Response => cacheKey e.1 == cacheKey url)
      (List.filter (fun e => cacheKey e.1 != cacheKey url) g.entries) = none := by
    rw [List.find?_eq_none]
    intro e he
    have := (List.mem_filter.mp he).2
    simpa using this
  simp [Generation.get, Generation.set, List.find?_append, h]

theorem findGeneration_append_new (n name : String) (cs : List Generation) :
    findGeneration n (cs ++ [⟨name, []⟩])
      = (findGeneration n cs).or (if name == n then some ⟨name, []⟩ else none) := by
  unfold findGeneration
  rw [List.find?_append]
  congr 1
  cases h : (name == n) <;> simp [List.find?_cons, h]

/-- The cache storage after `caches.open(name)` succeeded. -/
theorem cachesOpen_caches (env : Env) (name : String) (w : World)
    (h : env.fault (.openCache name) = none) :
    (cachesOpen env name w).1 = .ok () ∧
    (cachesOpen env name w).2.caches
      = if (findGeneration name w.caches).isSome then w.caches else w.caches ++ [⟨name, []⟩] := by
  simp only [cachesOpen, h]
  split <;> simp [World.emit]

/-- The cache storage after `cache.put(request, r)` on the cache `name` succeeded. -/
theorem cachePut_caches (env : Env) (name : String) (req : Request) (r : Response) (w : World)
    (hmethod : req.method = "GET") (hscheme : httpScheme req.url = true)
    (h : env.fault (.put name req.url) = none) :
    (cachePut env name req r w).caches
      = w.caches.map (fun g => if g.name == name then g.set req.url r else g) := by
  simp [cachePut, hmethod, hscheme, h]

/-- The cache storage after a `cache.put(request, r)` the platform refuses. -/
theorem cachePut_refused (env : Env) (name : String) (req : Request) (r : Response) (w : World)
    (hmethod : req.method ≠ "GET") :
    (cachePut env name req r w).caches = w.caches := by
  simp [cachePut, hmethod, World.emit]

/-- After the write-through of the strategies (`caches.open(DYNAMIC_CACHE)` then
`cache.put(request, r)`, both succeeding) the runtime generation holds `r` under the
request's URL. -/
theorem writeThrough_holds (env : Env) (req : Request) (r : Response) (w : World)
    (hmethod : req.method = "GET") (hscheme : httpScheme req.url = true)
    (hopen : env.fault (.openCache DYNAMIC_CACHE) = none)
    (hput : env.fault (.put DYNAMIC_CACHE req.url) = none) :
    (findGeneration DYNAMIC_CACHE
        (cachePut env DYNAMIC_CACHE req r (cachesOpen env DYNAMIC_CACHE w).2).caches).bind
      (fun g => g.get req.url) = some r := by
  rw [cachePut_caches env _ _ _ _ hmethod hscheme hput, (cachesOpen_caches env _ w hopen).2,
    findGeneration_map_set]
  cases hex : findGeneration DYNAMIC_CACHE w.caches with
  | some g0 =>
    have hg0 : (g0.name == DYNAMIC_CACHE) = true := by
      rw [findGeneration_name hex]; decide
    simp only [Option.isSome_some, if_true, hex, Option.map_some', Option.some_bind, hg0]
    exact Generation.get_set g0 req.url r
  | none =>
    have hDD : (DYNAMIC_CACHE == DYNAMIC_CACHE) = true := by decide
    simp only [Option.isSome_none, Bool.false_eq_true, if_false, findGeneration_append_new, hex,
      hDD, if_true, Option.none_or, Option.map_some', Option.some_bind]
    exact Generation.get_set _ req.url r

/-- The write-through of the strategies leaves the preload generation as it was. -/
theorem writeThrough_keeps_static (env : Env) (req : Request) (r : Response) (w : World)
    (hmethod : req.method = "GET") (hscheme : httpScheme req.url = true)
    (hopen : env.fault (.openCache DYNAMIC_CACHE) = none)
    (hput : env.fault (.put DYNAMIC_CACHE req.url) = none) :
    findGeneration STATIC_CACHE
        (cachePut env DYNAMIC_CACHE req r (cachesOpen env DYNAMIC_CACHE w).2).caches
      = findGeneration STATIC_CACHE w.caches := by
  have hDS : (DYNAMIC_CACHE == STATIC_CACHE) = false := by decide
  have hSD : (STATIC_CACHE == DYNAMIC_CACHE) = false := by decide
  have hopen1 : findGeneration STATIC_CACHE (cachesOpen env DYNAMIC_CACHE w).2.caches
      = findGeneration STATIC_CACHE w.caches := by
    rw [(cachesOpen_caches env _ w hopen).2]
    split
    · rfl
    · rw [findGeneration_append_new, hDS]
      cases findGeneration STATIC_CACHE w.caches <;> rfl
  rw [cachePut_caches env _ _ _ _ hmethod hscheme hput, findGeneration_map_set, hopen1]
  cases hs : findGeneration STATIC_CACHE w.caches with
  | none => rfl
  | some gs =>
    simp only [Option.map_some', findGeneration_name hs, hSD]
    rfl

theorem cachesOpen_log (env : Env) (name : String) (w : World) :
    (cachesOpen env name w).2.log = w.log ++ [.opened name] := by
  unfold cachesOpen
  split
  · rfl
  · split <;> rfl

theorem cachePut_log (env : Env) (name : String) (req : Request) (r : Response) (w : World) :
    (cachePut env name req r w).log = w.log ++ [.stored name req.url] := by
  unfold cachePut
  split
  · split <;> rfl
  · rfl

/-- What `networkFirst` does when the network answers and `caches.open` succeeds. -/
theorem networkFirst_online (env : Env) (request : Request) (w : World) (r : Response)
    (hopen : r.status = 200 → env.fault (.openCache DYNAMIC_CACHE) = none)
    (hnet : env.fetch request = .ok r) :
    networkFirst env request w =
      if r.status = 200 then
        (.fulfilled (some r), cachePut env DYNAMIC_CACHE request r
          (cachesOpen env DYNAMIC_CACHE (w.emit (.fetched request.url))).2)
      else (.fulfilled (some r), w.emit (.fetched request.url)) := by
  simp only [networkFirst, netFetch, hnet]
  split
  · rename_i h200
    have h1 := (cachesOpen_caches env DYNAMIC_CACHE (w.emit (.fetched request.url))
      (hopen h200)).1
    generalize cachesOpen env DYNAMIC_CACHE (w.emit (.fetched request.url)) = o at h1 ⊢
    obtain ⟨o1, o2⟩ := o
    simp only at h1
    subst h1
    rfl
  · rfl

/-- What `cacheFirst` does on a store miss when the network answers and `caches.open`
succeeds. -/
theorem cacheFirst_miss_online (env : Env) (request : Request) (w : World) (r : Response)
    (hlookup : env.fault (.lookup request.url) = none)
    (hopen : r.status = 200 → env.fault (.openCache DYNAMIC_CACHE) = none)
    (hmiss : storageMatch w.caches request = none) (hnet : env.fetch request = .ok r) :
    cacheFirst env request w =
      if r.status = 200 then
        (.fulfilled (some r), cachePut env DYNAMIC_CACHE request r
          (cachesOpen env DYNAMIC_CACHE
            ((w.emit (.matched request.url)).emit (.fetched request.url))).2)
      else (.fulfilled (some r), (w.emit (.matched request.url)).emit (.fetched request.url)) := by
  simp only [cacheFirst, cachesMatch, hlookup, hmiss, netFetch, hnet]
  split
  · rename_i h200
    have h1 := (cachesOpen_caches env DYNAMIC_CACHE
      ((w.emit (.matched request.url)).emit (.fetched request.url)) (hopen h200)).1
    generalize cachesOpen env DYNAMIC_CACHE
      ((w.emit (.matched request.url)).emit (.fetched request.url)) = o at h1 ⊢
    obtain ⟨o1, o2⟩ := o
    simp only at h1
    subst h1
    rfl
  · rfl

/-- C4 (as stated, refuted): the network answers 200 and the response is not stored, or
not even returned. A `POST` answered 200 is returned by `networkFirst`, but the platform's
`cache.put` refuses the request, so the runtime generation does not hold the response;
with `cache.put` failing, a `GET` answered 200 is returned and not stored; with
`caches.open` failing, `networkFirst` does not return the 200 answer at all and consults
the store. -/
theorem network_response_not_stored :
    ((onlineEnv okResponse).fetch postRequest = .ok okResponse ∧
      (networkFirst (onlineEnv okResponse) postRequest emptyWorld).1
        = .fulfilled (some okResponse) ∧
      (findGeneration DYNAMIC_CACHE
          (networkFirst (onlineEnv okResponse) postRequest emptyWorld).2.caches).bind
        (fun g => g.get postRequest.url) = none) ∧
    (putFailsEnv.fetch apiRequest = .ok okResponse ∧
      (findGeneration DYNAMIC_CACHE
          (networkFirst putFailsEnv apiRequest emptyWorld).2.caches).bind
        (fun g => g.get apiRequest.url) = none) ∧
    (openFailsEnv.fetch apiRequest = .ok okResponse ∧
      (networkFirst openFailsEnv apiRequest emptyWorld).1 ≠ .fulfilled (some okResponse) ∧
      storeLookups (networkFirst openFailsEnv apiRequest emptyWorld).2.log = 1) :=
  ⟨⟨rfl, by decide, by decide⟩, ⟨rfl, by decide⟩, ⟨rfl, by decide, by decide⟩⟩

/-- C4 (amended): for every `GET` request with an http(s) URL that the network answers
with `r` (any status), provided the store operations involved succeed (the lookup of
`cacheFirst`, and after a 200 answer `caches.open` and `cache.put`): `networkFirst`
resolves with `r` and performs no store lookup, and `cacheFirst` resolves with `r` when
the store has no entry for the request. In both cases: if `r.status = 200` the runtime
generation `dynamic-cache-v1` afterwards holds `r` under the request URL; if not, the
cache storage is exactly as before; a write into the runtime generation is recorded iff
`r.status = 200`; the preload generation is as before. For a request of another method,
`networkFirst` still resolves with `r` (given that open succeeds) but nothing is stored:
the storage is as before, up to the creation of an empty runtime generation. -/
theorem network_response_returned_and_stored_iff_200 (env : Env) (request : Request)
    (w : World) (r : Response) (hnet : env.fetch request = .ok r)
    (hopen : r.status = 200 → env.fault (.openCache DYNAMIC_CACHE) = none) :
    (request.method = "GET" → httpScheme request.url = true →
      (r.status = 200 → env.fault (.put DYNAMIC_CACHE request.url) = none) →
      ((networkFirst env request w).1 = .fulfilled (some r) ∧
        storeLookups (networkFirst env request w).2.log = storeLookups w.log ∧
        (r.status = 200 →
          (findGeneration DYNAMIC_CACHE (networkFirst env request w).2.caches).bind
            (fun g => g.get request.url) = some r) ∧
        (r.status ≠ 200 → (networkFirst env request w).2.caches = w.caches) ∧
        (Event.stored DYNAMIC_CACHE request.url ∈
            (networkFirst env request w).2.log.drop w.log.length ↔ r.status = 200) ∧
        findGeneration STATIC_CACHE (networkFirst env request w).2.caches
          = findGeneration STATIC_CACHE w.caches) ∧
      (env.fault (.lookup request.url) = none → storageMatch w.caches request = none →
        (cacheFirst env request w).1 = .fulfilled (some r) ∧
        (r.status = 200 →
          (findGeneration DYNAMIC_CACHE (cacheFirst env request w).2.caches).bind
            (fun g => g.get request.url) = some r) ∧
        (r.status ≠ 200 → (cacheFirst env request w).2.caches = w.caches) ∧
        (Event.stored DYNAMIC_CACHE request.url ∈
            (cacheFirst env request w).2.log.drop w.log.length ↔ r.status = 200) ∧
        findGeneration STATIC_CACHE (cacheFirst env request w).2.caches
          = findGeneration STATIC_CACHE w.caches)) ∧
    (request.method ≠ "GET" →
      (networkFirst env request w).1 = .fulfilled (some r) ∧
      ((networkFirst env request w).2.caches = w.caches ∨
        (networkFirst env request w).2.caches = w.caches ++ [⟨DYNAMIC_CACHE, []⟩])) := by
  constructor
  · intro hmethod hscheme hput
    constructor
    · rw [networkFirst_online env request w r hopen hnet]
      by_cases h200 : r.status = 200
      · rw [if_pos h200]
        refine ⟨rfl, ?_,
          fun _ => writeThrough_holds env request r _ hmethod hscheme (hopen h200) (hput h200),
          fun h => absurd h200 h, ⟨fun _ => h200, fun _ => ?_⟩,
          writeThrough_keeps_static env request r _ hmethod hscheme (hopen h200) (hput h200)⟩
        · simp [cachePut_log, cachesOpen_log, World.emit, storeLookups_append, storeLookups]
        · simp [cachePut_log, cachesOpen_log, World.emit]
      · rw [if_neg h200]
        refine ⟨rfl, ?_, fun h => absurd h h200, fun _ => rfl,
          ⟨fun h => ?_, fun h => absurd h h200⟩, rfl⟩
        · simp [World.emit, storeLookups_append, storeLookups]
        · simp [World.emit] at h
    · intro hlookup hmiss
      rw [cacheFirst_miss_online env request w r hlookup hopen hmiss hnet]
      by_cases h200 : r.status = 200
      · rw [if_pos h200]
        refine ⟨rfl,
          fun _ => writeThrough_holds env request r _ hmethod hscheme (hopen h200) (hput h200),
          fun h => absurd h200 h, ⟨fun _ => h200, fun _ => ?_⟩,
          writeThrough_keeps_static env request r _ hmethod hscheme (hopen h200) (hput h200)⟩
        simp [cachePut_log, cachesOpen_log, World.emit]
      · rw [if_neg h200]
        refine ⟨rfl, fun h => absurd h h200, fun _ => rfl,
          ⟨fun h => ?_, fun h => absurd h h200⟩, rfl⟩
        simp [World.emit] at h
  · intro hmethod
    rw [networkFirst_online env request w r hopen hnet]
    split
    · rename_i h200
      refine ⟨rfl, ?_⟩
      simp only [cachePut_refused env _ _ _ _ hmethod,
        (cachesOpen_caches env _ _ (hopen h200)).2, World.emit]
      split
      · exact Or.inl rfl
      · exact Or.inr rfl
    · exact ⟨rfl, Or.inl rfl⟩

/-- C4 witness: a 200 answer for an API request is returned and stored in the runtime
generation; a 404 answer is returned and the storage stays as it was. -/
theorem network_response_returned_and_stored_iff_200_witness :
    ((networkFirst (onlineEnv okResponse) apiRequest sampleWorld).1
        = .fulfilled (some okResponse) ∧
      (findGeneration DYNAMIC_CACHE
          (networkFirst (onlineEnv okResponse) apiRequest sampleWorld).2.caches).bind
        (fun g => g.get apiRequest.url) = some okResponse) ∧
    (cacheFirst (onlineEnv okResponse) apiRequest sampleWorld).1
        = .fulfilled (some okResponse) ∧
    ((networkFirst (onlineEnv notFoundResponse) apiRequest sampleWorld).1
        = .fulfilled (some notFoundResponse) ∧
      (networkFirst (onlineEnv notFoundResponse) apiRequest sampleWorld).2.caches
        = sampleWorld.caches) :=
  have h := (network_response_returned_and_stored_iff_200 (onlineEnv okResponse)
    apiRequest sampleWorld okResponse rfl (fun _ => rfl)).1 rfl (by decide) (fun _ => rfl)
  have h404 := (network_response_returned_and_stored_iff_200 (onlineEnv notFoundResponse)
    apiRequest sampleWorld notFoundResponse rfl (fun _ => rfl)).1 rfl (by decide)
    (fun _ => rfl)
  ⟨⟨h.1.1, h.1.2.2.1 (by decide)⟩, (h.2 rfl (by decide)).1,
    ⟨h404.1.1, h404.1.2.2.2.1 (by decide)⟩⟩

/-! ## C5: network-first when the network is down -/

/-- C5 (as stated, refuted): the network fetch fails with `TypeError: Failed to fetch`,
the request is not a document request and nothing is stored, yet `networkFirst` does not
fail with that error: the store lookup in its `catch` block rejects, and the strategy
fails with the store's error instead. -/
theorem networkFirst_offline_store_error :
    offlineLookupFailsEnv.fetch apiRequest = .error ⟨"TypeError", "Failed to fetch"⟩ ∧
    storageMatch emptyWorld.caches apiRequest = none ∧
    (networkFirst offlineLookupFailsEnv apiRequest emptyWorld).1 = .rejected quotaError ∧
    (networkFirst offlineLookupFailsEnv apiRequest emptyWorld).1
      ≠ .rejected ⟨"TypeError", "Failed to fetch"⟩ :=
  ⟨rfl, by decide, by decide, by decide⟩

/-- C5 (amended): when the network fetch fails with `e` and the store lookups made in the
`catch` block do not fail, `networkFirst` resolves with the stored entry for the request
if there is one (an entry stored under the request's URL, fragment ignored, for a `GET`
request; a request of another method has none); otherwise, for a document request with
the root document `/` stored, it resolves with the stored root document; otherwise its
promise rejects with that same error `e`. In particular a request that is not a document
request and has no stored copy fails with `e`. -/
theorem networkFirst_offline_fallback (env : Env) (request : Request) (w : World)
    (e : JsError) (hnet : env.fetch request = .error e)
    (hlookup : env.fault (.lookup request.url) = none) :
    (∀ r, storageMatch w.caches request = some r →
      (networkFirst env request w).1 = .fulfilled (some r)) ∧
    (∀ r, storageMatch w.caches request = none → request.destination = "document" →
      env.fault (.lookup (resolveUrl env "/")) = none →
      storeLookup w.caches (resolveUrl env "/") = some r →
      (networkFirst env request w).1 = .fulfilled (some r)) ∧
    (storageMatch w.caches request = none → request.destination = "document" →
      env.fault (.lookup (resolveUrl env "/")) = none →
      storeLookup w.caches (resolveUrl env "/") = none →
      (networkFirst env request w).1 = .rejected e) ∧
    (storageMatch w.caches request = none → request.destination ≠ "document" →
      (networkFirst env request w).1 = .rejected e) := by
  have hrootMatch : ∀ cs : List Generation,
      storageMatch cs (getRequest (resolveUrl env "/")) = storeLookup cs (resolveUrl env "/") := by
    intro cs
    simp [storageMatch, getRequest]
  refine ⟨?_, ?_, ?_, ?_⟩
  · intro r hr
    simp [networkFirst, netFetch, hnet, networkFirstCatch, cachesMatch, hlookup, World.emit, hr]
  · intro r hmiss hdoc hroot hr
    have hrootFault : env.fault (.lookup (getRequest (resolveUrl env "/")).url) = none := hroot
    simp [networkFirst, netFetch, hnet, networkFirstCatch, cachesMatch, hlookup, hrootFault,
      World.emit, hmiss, hdoc, hrootMatch, hr]
  · intro hmiss hdoc hroot hr
    have hrootFault : env.fault (.lookup (getRequest (resolveUrl env "/")).url) = none := hroot
    simp [networkFirst, netFetch, hnet, networkFirstCatch, cachesMatch, hlookup, hrootFault,
      World.emit, hmiss, hdoc, hrootMatch, hr]
  · intro hmiss hdoc
    simp [networkFirst, netFetch, hnet, networkFirstCatch, cachesMatch, hlookup, World.emit,
      hmiss, hdoc]

/-- C5 witness: with the network down, `/api/data` with no stored copy fails with the
network's error; a document request falls back to the stored root document; and a request
whose URL carries a fragment is served the entry stored under the URL without it. -/
theorem networkFirst_offline_fallback_witness :
    (networkFirst offlineEnv apiRequest sampleWorld).1
        = .rejected ⟨"TypeError", "Failed to fetch"⟩ ∧
    (networkFirst offlineEnv ⟨"https://app.test/track", "document", "GET"⟩ sampleWorld).1
        = .fulfilled (some homePage) ∧
    (networkFirst offlineEnv apiFragmentRequest warmWorld).1
        = .fulfilled (some ⟨200, "application/json", "stored data"⟩) :=
  ⟨(networkFirst_offline_fallback offlineEnv apiRequest sampleWorld
      ⟨"TypeError", "Failed to fetch"⟩ rfl rfl).2.2.2 (by decide) (by decide),
   (networkFirst_offline_fallback offlineEnv ⟨"https://app.test/track", "document", "GET"⟩
      sampleWorld ⟨"TypeError", "Failed to fetch"⟩ rfl rfl).2.1 homePage (by decide) rfl rfl
      (by decide),
   (networkFirst_offline_fallback offlineEnv apiFragmentRequest warmWorld
      ⟨"TypeError", "Failed to fetch"⟩ rfl rfl).1 _ (by decide)⟩

/-! ## C6: the offline placeholder of cache-first -/

/-- C6 (defect): a document request, nothing stored (neither the page nor the root
document), network down. The `catch` block returns `caches.match('/') || new Response(...)`;
the left operand is a promise, hence truthy, so the placeholder is never built and the
strategy's promise is fulfilled with `undefined` instead of the 503 placeholder. -/
theorem cacheFirst_offline_document_is_undefined :
    onFetch offlineEnv staticDocumentRequest emptyWorld
        = some (cacheFirst offlineEnv staticDocumentRequest emptyWorld) ∧
    (cacheFirst offlineEnv staticDocumentRequest emptyWorld).1 = .fulfilled none ∧
    (cacheFirst offlineEnv staticDocumentRequest emptyWorld).1
        ≠ .fulfilled (some offlineResponse) := by
  decide

/-! ## C7: store failures during a strategy -/

/-- C7 (as stated, refuted): the network answers with `okResponse`, yet the request fails.
With the store lookup failing, `cacheFirst` for a script rejects with the store's error
and never calls the network; with `caches.open` failing, `networkFirst` for an API request
with no stored copy rejects with the store's error although the network had answered. -/
theorem store_failure_fails_request :
    lookupFailsEnv.fetch scriptRequest = .ok okResponse ∧
    (cacheFirst lookupFailsEnv scriptRequest emptyWorld).1 = .rejected quotaError ∧
    networkCalls (cacheFirst lookupFailsEnv scriptRequest emptyWorld).2.log = 0 ∧
    openFailsEnv.fetch apiRequest = .ok okResponse ∧
    (networkFirst openFailsEnv apiRequest emptyWorld).1 = .rejected quotaError :=
  ⟨rfl, by decide, by decide, rfl, by decide⟩

/-- C7 (amended): with the network answering `r`, a failure of the store's `put` is
absorbed: whenever lookup and open succeed, `networkFirst` resolves with `r` and
`cacheFirst` resolves with `r` on a lookup miss, whatever `put` does. A failure of the
lookup or of `caches.open` is not absorbed but handled by the strategy's `catch` block
like a network failure: for a request that is not a document request, `cacheFirst`
rejects with the store's error when its lookup fails (without calling the network) or
when `caches.open` fails after a 200 answer, and `networkFirst` rejects with the store's
error when `caches.open` fails after a 200 answer and no copy is stored. -/
theorem store_failure_handling (env : Env) (request : Request) (w : World) (r : Response)
    (hnet : env.fetch request = .ok r) :
    (env.fault (.lookup request.url) = none → env.fault (.openCache DYNAMIC_CACHE) = none →
      (networkFirst env request w).1 = .fulfilled (some r) ∧
      (storeLookup w.caches request.url = none →
        (cacheFirst env request w).1 = .fulfilled (some r))) ∧
    (∀ e, env.fault (.lookup request.url) = some e → request.destination ≠ "document" →
      (cacheFirst env request w).1 = .rejected e ∧
      networkCalls (cacheFirst env request w).2.log = networkCalls w.log) ∧
    (∀ e, env.fault (.openCache DYNAMIC_CACHE) = some e → r.status = 200 →
      env.fault (.lookup request.url) = none → storeLookup w.caches request.url = none →
      request.destination ≠ "document" →
      (cacheFirst env request w).1 = .rejected e ∧
      (networkFirst env request w).1 = .rejected e) := by
  refine ⟨?_, ?_, ?_⟩
  · intro hlookup hopen
    constructor
    · rw [networkFirst_online env request w r (fun _ => hopen) hnet]
      split <;> rfl
    · intro hmiss
      rw [cacheFirst_miss_online env request w r hlookup (fun _ => hopen)
        (storageMatch_of_miss hmiss) hnet]
      split <;> rfl
  · intro e hlookup hdoc
    simp [cacheFirst, cachesMatch, hlookup, cacheFirstCatch, hdoc, World.emit,
      networkCalls_append, networkCalls]
  · intro e hopen h200 hlookup hmiss hdoc
    constructor
    · simp [cacheFirst, cachesMatch, hlookup, storageMatch_of_miss hmiss, netFetch, hnet, h200,
        cachesOpen, hopen, cacheFirstCatch, hdoc]
    · simp [networkFirst, netFetch, hnet, h200, cachesOpen, hopen, networkFirstCatch,
        cachesMatch, hlookup, storageMatch_of_miss hmiss, hdoc, World.emit]

/-- C7 witness: with `put` failing, both strategies still answer with the network's
response. -/
theorem store_failure_handling_witness :
    (networkFirst putFailsEnv apiRequest emptyWorld).1 = .fulfilled (some okResponse) ∧
    (cacheFirst putFailsEnv apiRequest emptyWorld).1 = .fulfilled (some okResponse) :=
  have h := (store_failure_handling putFailsEnv apiRequest emptyWorld okResponse rfl).1 rfl rfl
  ⟨h.1, h.2 rfl⟩

/-! ## C8: installation -/

theorem fetchAll_world (env : Env) (urls : List String) (w : World) :
    (fetchAll env urls w).2
      = ⟨w.caches, w.log ++ urls.map (fun u => Event.fetched (resolveUrl env u))⟩ := by
  induction urls generalizing w with
  | nil => simp [fetchAll]
  | cons u us ih =>
    have h := ih (w.emit (.fetched (resolveUrl env u)))
    simp only [fetchAll, netFetch, getRequest]
    split <;> [(split <;> [skip; split <;> [split; skip]]); skip] <;> simp [h] <;>
      simp [World.emit]

theorem fetchAll_keys (env : Env) (urls : List String) (w : World)
    (l : List (String × Response)) (h : (fetchAll env urls w).1 = .ok l) :
    l.map Prod.fst = urls.map (resolveUrl env) := by
  induction urls generalizing w l with
  | nil =>
    simp [fetchAll] at h
    simp [← h]
  | cons u us ih =>
    simp only [fetchAll, netFetch] at h
    split at h
    · split at h
      · simp at h
      · split at h
        · split at h
          · simp at h
          · rename_i l0 hl0
            simp only [Except.ok.injEq] at h
            subst h
            simp [ih _ l0 hl0]
        · simp at h
    · simp at h

theorem fetchAll_fails (env : Env) (urls : List String) (w : World)
    (h : ∃ u ∈ urls, assetFails env u = true) :
    ∃ e, (fetchAll env urls w).1 = .error e := by
  induction urls generalizing w with
  | nil => simp at h
  | cons u us ih =>
    simp only [fetchAll, netFetch]
    cases hs : httpScheme (resolveUrl env u) with
    | false => exact ⟨_, rfl⟩
    | true =>
      simp only [if_true]
      cases hf : env.fetch (getRequest (resolveUrl env u)) with
      | error e => exact ⟨_, rfl⟩
      | ok resp =>
        simp only
        by_cases hacc : 200 ≤ resp.status ∧ resp.status ≤ 299 ∧ resp.status ≠ 206
        · rw [if_pos hacc]
          have hrest : ∃ u ∈ us, assetFails env u = true := by
            obtain ⟨u1, hu1, hbad⟩ := h
            rcases List.mem_cons.mp hu1 with heq | hmem
            · subst heq
              simp [assetFails, hs, hf, hacc] at hbad
            · exact ⟨u1, hmem, hbad⟩
          obtain ⟨e, he⟩ := ih (w.emit (.fetched (resolveUrl env u))) hrest
          simp only [getRequest] at he ⊢
          rw [he]
          exact ⟨_, rfl⟩
        · rw [if_neg hacc]
          exact ⟨_, rfl⟩

theorem fetchAll_succeeds (env : Env) (urls : List String) (w : World)
    (h : ∀ u ∈ urls, assetFails env u = false) :
    ∃ l, (fetchAll env urls w).1 = .ok l := by
  induction urls generalizing w with
  | nil => exact ⟨[], rfl⟩
  | cons u us ih =>
    have hu := h u (List.mem_cons_self _ _)
    obtain ⟨l, hl⟩ := ih (w.emit (.fetched (resolveUrl env u)))
      (fun v hv => h v (List.mem_cons_of_mem _ hv))
    simp only [assetFails, Bool.or_eq_false_iff, Bool.not_eq_false'] at hu
    obtain ⟨hs, hfetch⟩ := hu
    simp only [fetchAll, netFetch, hs, if_true]
    cases hf : env.fetch (getRequest (resolveUrl env u)) with
    | error e => simp [hf] at hfetch
    | ok resp =>
      have hacc : 200 ≤ resp.status ∧ resp.status ≤ 299 ∧ resp.status ≠ 206 := by
        simpa [hf] using hfetch
      simp only [if_pos hacc]
      simp only [getRequest] at hl ⊢
      rw [hl]
      exact ⟨_, rfl⟩

theorem Generation.get_congr (g : Generation) (u k : String) (h : cacheKey k = cacheKey u) :
    g.get k = g.get u := by
  simp only [Generation.get, h]

theorem Generation.get_set_ne (g : Generation) (u k : String) (r : Response)
    (h : cacheKey k ≠ cacheKey u) : (g.set u r).get k = g.get k := by
  have hfilter : ∀ es : List (String × Response),
      List.find? (fun e => cacheKey e.1 == cacheKey k)
          (List.filter (fun e => cacheKey e.1 != cacheKey u) es)
        = List.find? (fun e => cacheKey e.1 == cacheKey k) es := by
    intro es
    induction es with
    | nil => rfl
    | cons x xs ih =>
      by_cases hx : cacheKey x.1 = cacheKey u
      · have hk : (cacheKey x.1 == cacheKey k) = false := by
          rw [hx]
          simpa using fun hh => h hh.symm
        have hq : (cacheKey x.1 != cacheKey u) = false := by simpa using hx
        simp only [List.filter_cons, hq, Bool.false_eq_true, if_false, List.find?_cons, hk, ih]
      · have hq : (cacheKey x.1 != cacheKey u) = true := by simpa using hx
        simp only [List.filter_cons, hq, if_true, List.find?_cons, ih]
  have hlast : List.find? (fun e : String × Response => cacheKey e.1 == cacheKey k) [(u, r)]
      = none := by
    have : (cacheKey u == cacheKey k) = false := by simpa using fun hh => h hh.symm
    simp [List.find?_cons, this]
  simp only [Generation.get, Generation.set, List.find?_append, hfilter, hlast, Option.or_none]

theorem Generation.setAll_name (g : Generation) (l : List (String × Response)) :
    (g.setAll l).name = g.name := by
  induction l generalizing g with
  | nil => rfl
  | cons x xs ih =>
    obtain ⟨u, r⟩ := x
    simp only [Generation.setAll, ih]
    rfl

theorem Generation.setAll_keeps (g : Generation) (l : List (String × Response)) (k : String)
    (h : (g.get k).isSome = true) : ((g.setAll l).get k).isSome = true := by
  induction l generalizing g with
  | nil => exact h
  | cons x xs ih =>
    obtain ⟨u, r⟩ := x
    simp only [Generation.setAll]
    apply ih
    by_cases hk : cacheKey k = cacheKey u
    · rw [Generation.get_congr _ u k hk, Generation.get_set]
      rfl
    · rw [Generation.get_set_ne g u k r hk]
      exact h

theorem Generation.setAll_holds (g : Generation) (l : List (String × Response)) (k : String)
    (h : k ∈ l.map Prod.fst) : ((g.setAll l).get k).isSome = true := by
  induction l generalizing g with
  | nil => simp at h
  | cons x xs ih =>
    obtain ⟨u, r⟩ := x
    simp only [Generation.setAll]
    rcases List.mem_cons.mp h with heq | hmem
    · apply Generation.setAll_keeps
      simp only at heq
      subst heq
      rw [Generation.get_set]
      rfl
    · exact ih _ hmem

/-- The install listener, case by case. -/
theorem onInstall_eq (env : Env) (w : World) :
    onInstall env w =
      match env.fault (.openCache STATIC_CACHE) with
      | some e => (.ok (), (w.emit (.opened STATIC_CACHE)).emit (.consoleError e))
      | none =>
        match (fetchAll env STATIC_ASSETS (cachesOpen env STATIC_CACHE w).2).1,
            env.fault (.addAll STATIC_CACHE) with
        | .error e, _ =>
          (.ok (), ((fetchAll env STATIC_ASSETS (cachesOpen env STATIC_CACHE w).2).2.emit
            (.addedAll STATIC_CACHE)).emit (.consoleError e))
        | .ok _, some e =>
          (.ok (), ((fetchAll env STATIC_ASSETS (cachesOpen env STATIC_CACHE w).2).2.emit
            (.addedAll STATIC_CACHE)).emit (.consoleError e))
        | .ok l, none =>
          (.ok (),
            { caches := (fetchAll env STATIC_ASSETS (cachesOpen env STATIC_CACHE w).2).2.caches.map
                (fun g => if g.name == STATIC_CACHE then g.setAll l else g),
              log := (fetchAll env STATIC_ASSETS (cachesOpen env STATIC_CACHE w).2).2.log
                ++ [.addedAll STATIC_CACHE, .skipWaiting] }) := by
  cases hopen : env.fault (.openCache STATIC_CACHE) with
  | some e => simp [onInstall, cachesOpen, hopen]
  | none =>
    have h1 := (cachesOpen_caches env STATIC_CACHE w hopen).1
    simp only [onInstall, cacheAddAll]
    generalize cachesOpen env STATIC_CACHE w = o at h1 ⊢
    obtain ⟨o1, o2⟩ := o
    simp only at h1
    subst h1
    simp only
    generalize fetchAll env STATIC_ASSETS o2 = f
    obtain ⟨f1, f2⟩ := f
    cases f1 with
    | error e => simp
    | ok l =>
      cases hadd : env.fault (.addAll STATIC_CACHE) with
      | some e => simp
      | none => simp [World.emit]

theorem cachesOpen_has (env : Env) (name : String) (w : World)
    (h : env.fault (.openCache name) = none) :
    ∃ g, findGeneration name (cachesOpen env name w).2.caches = some g := by
  rw [(cachesOpen_caches env name w h).2]
  cases hex : findGeneration name w.caches with
  | some g => exact ⟨g, by simp [hex]⟩
  | none =>
    refine ⟨⟨name, []⟩, ?_⟩
    simp [findGeneration_append_new, hex]

theorem onInstall_fulfilled (env : Env) (w : World) : (onInstall env w).1 = .ok () := by
  rw [onInstall_eq]
  split
  · rfl
  · split <;> rfl

/-- C8 (as stated, refuted): an asset fetch fails, yet the promise handed to
`event.waitUntil` is fulfilled. With the network down every asset fetch is rejected, the
preload generation is created and holds nothing, and the error goes to `console.error`;
the same happens when every asset is answered with a 404. -/
theorem install_failure_is_swallowed :
    (∀ u ∈ STATIC_ASSETS,
      ∃ e, offlineEnv.fetch (getRequest (resolveUrl offlineEnv u)) = .error e) ∧
    (onInstall offlineEnv emptyWorld).1 = .ok () ∧
    (onInstall offlineEnv emptyWorld).2.caches = [⟨"static-cache-v1", []⟩] ∧
    Event.consoleError ⟨"TypeError", "Failed to fetch"⟩ ∈ (onInstall offlineEnv emptyWorld).2.log ∧
    Event.skipWaiting ∉ (onInstall offlineEnv emptyWorld).2.log ∧
    (onInstall notFoundEnv emptyWorld).1 = .ok () ∧
    (onInstall notFoundEnv emptyWorld).2.caches = [⟨"static-cache-v1", []⟩] :=
  ⟨fun _ _ => ⟨_, rfl⟩, onInstall_fulfilled _ _, by decide, by decide, by decide,
    onInstall_fulfilled _ _, by decide⟩

/-- C8 (amended): for every install run the promise handed to `event.waitUntil` is
fulfilled. When opening the preload generation fails, or `addAll` fails on any listed
asset (its fetch is rejected, or it is answered with a status that is not ok, or its URL
is not http(s)), or storing the assets fails, the error is logged with `console.error`
instead of being propagated, `self.skipWaiting()` is not requested, and no entry is
written (the storage is as before, up to the creation of an empty preload generation).
`self.skipWaiting()` is requested only when every listed asset was stored in the preload
generation, and it is requested whenever none of these failures occurs. -/
theorem onInstall_always_completes (env : Env) (w : World) :
    (onInstall env w).1 = .ok () ∧
    ((env.fault (.openCache STATIC_CACHE) ≠ none ∨
        (∃ u ∈ STATIC_ASSETS, assetFails env u = true) ∨
        env.fault (.addAll STATIC_CACHE) ≠ none) →
      Event.skipWaiting ∉ (onInstall env w).2.log.drop w.log.length ∧
      (∃ e, Event.consoleError e ∈ (onInstall env w).2.log.drop w.log.length) ∧
      ((onInstall env w).2.caches = w.caches ∨
        (onInstall env w).2.caches = w.caches ++ [⟨STATIC_CACHE, []⟩])) ∧
    (Event.skipWaiting ∈ (onInstall env w).2.log.drop w.log.length →
      ∀ u ∈ STATIC_ASSETS,
        ((findGeneration STATIC_CACHE (onInstall env w).2.caches).bind
          (fun g => g.get (resolveUrl env u))).isSome = true) ∧
    (¬ (env.fault (.openCache STATIC_CACHE) ≠ none ∨
        (∃ u ∈ STATIC_ASSETS, assetFails env u = true) ∨
        env.fault (.addAll STATIC_CACHE) ≠ none) →
      Event.skipWaiting ∈ (onInstall env w).2.log.drop w.log.length) := by
  refine ⟨onInstall_fulfilled env w, ?_, ?_, ?_⟩
  · intro hfail
    rw [onInstall_eq]
    cases hopen : env.fault (.openCache STATIC_CACHE) with
    | some e => simp [World.emit]
    | none =>
      have hc := (cachesOpen_caches env STATIC_CACHE w hopen).2
      simp only
      cases hres : (fetchAll env STATIC_ASSETS (cachesOpen env STATIC_CACHE w).2).1 with
      | error e =>
        simp only [fetchAll_world, World.emit, cachesOpen_log, List.append_assoc,
          List.drop_left, hc]
        refine ⟨by simp, ⟨e, by simp⟩, ?_⟩
        split
        · exact Or.inl rfl
        · exact Or.inr rfl
      | ok l =>
        cases hadd : env.fault (.addAll STATIC_CACHE) with
        | some e =>
          simp only [fetchAll_world, World.emit, cachesOpen_log, List.append_assoc,
            List.drop_left, hc]
          refine ⟨by simp, ⟨e, by simp⟩, ?_⟩
          split
          · exact Or.inl rfl
          · exact Or.inr rfl
        | none =>
          exfalso
          rcases hfail with h | h | h
          · exact h hopen
          · obtain ⟨e, he⟩ :=
              fetchAll_fails env STATIC_ASSETS (cachesOpen env STATIC_CACHE w).2 h
            rw [he] at hres
            simp at hres
          · exact h hadd
  · rw [onInstall_eq]
    cases hopen : env.fault (.openCache STATIC_CACHE) with
    | some e => simp [World.emit]
    | none =>
      simp only
      cases hres : (fetchAll env STATIC_ASSETS (cachesOpen env STATIC_CACHE w).2).1 with
      | error e =>
        simp [fetchAll_world, World.emit, cachesOpen_log]
      | ok l =>
        cases hadd : env.fault (.addAll STATIC_CACHE) with
        | some e => simp [fetchAll_world, World.emit, cachesOpen_log]
        | none =>
          intro _ u hu
          obtain ⟨g, hg⟩ := cachesOpen_has env STATIC_CACHE w hopen
          have hname : (g.name == STATIC_CACHE) = true := by
            rw [findGeneration_name hg]
            decide
          have hkey : resolveUrl env u ∈ l.map Prod.fst := by
            rw [fetchAll_keys env STATIC_ASSETS _ l hres]
            exact List.mem_map_of_mem _ hu
          simp only [fetchAll_world]
          rw [findGeneration_map _ _ (fun g => by split <;> simp [Generation.setAll_name]), hg]
          simp only [Option.map_some', Option.some_bind, hname, if_true]
          exact Generation.setAll_holds g l _ hkey
  · intro hok
    simp only [not_or, not_not, not_exists, not_and, Bool.not_eq_true] at hok
    obtain ⟨hopen, hassets, hadd⟩ := hok
    obtain ⟨l, hl⟩ :=
      fetchAll_succeeds env STATIC_ASSETS (cachesOpen env STATIC_CACHE w).2 hassets
    rw [onInstall_eq]
    simp only [hopen, hl, hadd, fetchAll_world, cachesOpen_log, List.append_assoc,
      List.drop_left]
    simp

/-- C8 witness: with every asset answered by a 404 the install promise is fulfilled, the
error is logged and `skipWaiting` is not requested; with every asset answered by a 200,
`skipWaiting` is requested and the root document is stored in the preload generation. -/
theorem onInstall_always_completes_witness :
    ((onInstall notFoundEnv emptyWorld).1 = .ok () ∧
      Event.skipWaiting ∉ (onInstall notFoundEnv emptyWorld).2.log.drop emptyWorld.log.length ∧
      ∃ e, Event.consoleError e ∈
        (onInstall notFoundEnv emptyWorld).2.log.drop emptyWorld.log.length) ∧
    (Event.skipWaiting ∈
        (onInstall (onlineEnv okResponse) emptyWorld).2.log.drop emptyWorld.log.length ∧
      ((findGeneration STATIC_CACHE (onInstall (onlineEnv okResponse) emptyWorld).2.caches).bind
        (fun g => g.get "https://app.test/")).isSome = true) :=
  have h := onInstall_always_completes notFoundEnv emptyWorld
  have h2 := h.2.1 (Or.inr (Or.inl ⟨"/", by decide, by decide⟩))
  have k := onInstall_always_completes (onlineEnv okResponse) emptyWorld
  have k4 := k.2.2.2 (by decide)
  ⟨⟨h.1, h2.1, h2.2.1⟩, ⟨k4, k.2.2.1 k4 "/" (by decide)⟩⟩

/-! ## C9: activation deletes every other generation -/

theorem deleteStale_caches (env : Env) (hstore : env.storeHealthy) (names : List String)
    (w : World) :
    (deleteStale env names w).1 = none ∧
    (deleteStale env names w).2.caches
      = w.caches.filter (fun g =>
          !(decide (g.name ∈ names) && (g.name != STATIC_CACHE && g.name != DYNAMIC_CACHE))) := by
  induction names generalizing w with
  | nil => simp [deleteStale]
  | cons n ns ih =>
    simp only [deleteStale]
    split
    · rename_i hstale
      simp only [cachesDelete, hstore (.delete n)]
      refine ⟨(ih _).1, ?_⟩
      rw [(ih _).2]
      simp only [List.filter_filter]
      apply List.filter_congr
      intro g _
      by_cases hg : g.name = n
      · subst hg
        simp [hstale.1, hstale.2]
      · have hne : ¬ n = g.name := fun h => hg h.symm
        simp [hg, hne]
    · rename_i hcur
      refine ⟨(ih _).1, ?_⟩
      rw [(ih _).2]
      apply List.filter_congr
      intro g _
      by_cases hg : g.name = n
      · subst hg
        have : g.name = STATIC_CACHE ∨ g.name = DYNAMIC_CACHE := by
          by_contra hcon
          push_neg at hcon
          exact hcur hcon
        rcases this with h | h <;> simp [h]
      · have hne : ¬ n = g.name := fun h => hg h.symm
        simp [hg, hne]

/-- C9: when the store works, the promise of the activate listener is fulfilled and the
cache storage afterwards consists of exactly the generations that existed before and are
named `static-cache-v1` or `dynamic-cache-v1`, in their old order and with their entries
unchanged: every generation of another name is gone and none is created. -/
theorem onActivate_keeps_only_current (env : Env) (w : World) (hstore : env.storeHealthy) :
    (onActivate env w).1 = .ok () ∧
    (onActivate env w).2.caches
      = w.caches.filter (fun g => g.name == STATIC_CACHE || g.name == DYNAMIC_CACHE) ∧
    (∀ g, g ∈ (onActivate env w).2.caches ↔
      g ∈ w.caches ∧ (g.name = STATIC_CACHE ∨ g.name = DYNAMIC_CACHE)) := by
  have hd := deleteStale_caches env hstore (w.caches.map (fun g => g.name)) (w.emit .listedKeys)
  have hrun : (onActivate env w).1 = .ok () ∧
      (onActivate env w).2.caches
        = w.caches.filter (fun g => g.name == STATIC_CACHE || g.name == DYNAMIC_CACHE) := by
    simp only [onActivate, cachesKeys, hstore .keys]
    generalize deleteStale env (w.caches.map (fun g => g.name)) (w.emit .listedKeys) = d at hd
    obtain ⟨d1, d2⟩ := d
    simp only at hd
    obtain ⟨h1, h2⟩ := hd
    subst h1
    refine ⟨rfl, ?_⟩
    simp only [World.emit, h2]
    apply List.filter_congr
    intro g hg
    have hmem : g.name ∈ w.caches.map (fun g => g.name) := List.mem_map_of_mem _ hg
    have hdec : decide (g.name ∈ w.caches.map (fun g => g.name)) = true := by simpa using hmem
    simp only [hdec, bne, Bool.true_and]
    cases (g.name == STATIC_CACHE) <;> cases (g.name == DYNAMIC_CACHE) <;> rfl
  refine ⟨hrun.1, hrun.2, ?_⟩
  intro g
  rw [hrun.2, List.mem_filter]
  simp

/-- C9 witness: on the sample storage the generation `static-cache-v0` left by an older
worker is deleted and the two current generations stay as they were. -/
theorem onActivate_keeps_only_current_witness :
    (onActivate offlineEnv sampleWorld).2.caches
      = [ ⟨"static-cache-v1", [("https://app.test/", homePage)]⟩, ⟨"dynamic-cache-v1", []⟩ ] :=
  (onActivate_keeps_only_current offlineEnv sampleWorld (fun _ => rfl)).2.1.trans (by decide)

/-! ## C10: control messages -/

/-- C10 (as stated, refuted): a `GET_VERSION` message without a reply port makes the
listener throw a `TypeError` (`event.ports[0]` is `undefined`), and nothing is posted. -/
theorem getVersion_without_port_throws :
    versionQueryWithoutPort.hasType "GET_VERSION" = true ∧
    (onMessage versionQueryWithoutPort emptyWorld).1 = .error typeError ∧
    postedMessages (onMessage versionQueryWithoutPort emptyWorld).2.log = [] :=
  ⟨by decide, rfl, by decide⟩

/-- C10 (amended): for every `GET_VERSION` message that carries a reply port, the listener
completes without raising and posts exactly one message, the version `CACHE_NAME`, to the
first port; for a message of any other type, or with no data, it posts nothing and does
not raise. -/
theorem onMessage_getVersion_replies (ev : MessageEvent) (w : World) :
    (ev.hasType "GET_VERSION" = true → ∀ port, ev.ports[0]? = some port →
      (onMessage ev w).1 = .ok () ∧
      postedMessages ((onMessage ev w).2.log.drop w.log.length) = [(port, CACHE_NAME)]) ∧
    (ev.hasType "GET_VERSION" = false →
      (onMessage ev w).1 = .ok () ∧
      postedMessages ((onMessage ev w).2.log.drop w.log.length) = []) := by
  constructor
  · intro ht port hp
    simp only [onMessage, ht, if_true, hp]
    refine ⟨trivial, ?_⟩
    split <;> simp [World.emit, postedMessages]
  · intro ht
    simp only [onMessage, ht, Bool.false_eq_true, if_false]
    refine ⟨trivial, ?_⟩
    split <;> simp [World.emit, postedMessages]

/-- C10 witness: a `GET_VERSION` message with reply port 7 gets exactly one reply, on
port 7, carrying `CACHE_NAME`. -/
theorem onMessage_getVersion_replies_witness :
    (onMessage versionQueryWithPort emptyWorld).1 = .ok () ∧
    postedMessages ((onMessage versionQueryWithPort emptyWorld).2.log.drop emptyWorld.log.length)
      = [(7, "fitness-coach-v1.2.0")] :=
  (onMessage_getVersion_replies versionQueryWithPort emptyWorld).1 (by decide) 7 rfl

end ServiceWorker
